import Mathlib

set_option maxRecDepth 40000
set_option maxHeartbeats 4000000

/-!
Shallow embedding of the Monkey interpreter from
joppe/writing-an-interpreter-in-python.

Each definition translates one Python function of the repository:
`interpreter/token_type.py`, `interpreter/token.py`, `interpreter/lexer.py`,
`interpreter/ast.py`, `interpreter/parser.py`, `interpreter/object.py`,
`interpreter/environment.py`, `interpreter/builtins.py`, `interpreter/eval.py`.

Modelling conventions:
* Python strings are Lean `String`s; the lexer works on the `List Char` of
  the input.  `str.isalpha` / `str.isdigit` are modelled by `Char.isAlpha` /
  `Char.isDigit`, which agree with Python on ASCII input (all inputs in the
  claims are ASCII).
* Python `while` loops are written as fuel recursion; the fuel handed to each
  loop (`input.length + 2`) exceeds the number of iterations the loop can
  perform, so the fuel-out branch is unreachable on every input.
* Object identity (Python `is` / default `==` on `object.Object` subclasses,
  which define no `__eq__`) is modelled by an allocation id `oid` carried by
  every value: each Python constructor call draws a fresh id from a counter,
  and the module-level singletons `Eval.null`, `Eval.true`, `Eval.false` and
  the four `object.Builtin` instances of `builtins.py` receive the fixed ids
  0..6.
* Python mutable structures reachable from several references are heap
  allocated: environments live in `EvalState.frames` (an `Environment` is an
  index), Python lists that carry array elements live in `EvalState.lists`.
* A Python exception that the interpreter does not catch is an
  `Except.error` outcome of the evaluator, distinct from the Monkey-level
  `Error` value: `ZeroDivisionError` in `5 / 0`, `IndexError` in
  `args[index]`, and — decisive for several claims — `AttributeError` from
  `isinstance(node, ast.HashLiteral)` at `eval.py` line 90, because
  `ast.py` defines no `HashLiteral`: every node whose `isinstance` case
  sits after that line (`ArrayLiteral`, `IndexExpression`, `Boolean`,
  `StringLiteral`) and Python `None` crash at dispatch instead of
  evaluating.
-/

/-- `TokenType` enum of `token_type.py`. -/
inductive TokenType where
  | ILLEGAL | EOF
  | IDENT | INT | STRING
  | ASSIGN | PLUS | MINUS | BANG | ASTERISK | SLASH | LT | GT | EQ | NOT_EQ
  | COMMA | SEMICOLON | LPAREN | RPAREN | LBRACE | RBRACE
  | LBRACKET | RBRACKET | COLON
  | FUNCTION | LET | TRUE | FALSE | IF | ELSE | RETURN
  deriving DecidableEq, Repr

namespace TokenType

/-- The member name of a `TokenType`, as `Enum._name_` yields it
(used through `.name`-free f-strings as `TokenType.<name>`). -/
def name : TokenType → String
  | .ILLEGAL => "ILLEGAL"
  | .EOF => "EOF"
  | .IDENT => "IDENT"
  | .INT => "INT"
  | .STRING => "STRING"
  | .ASSIGN => "ASSIGN"
  | .PLUS => "PLUS"
  | .MINUS => "MINUS"
  | .BANG => "BANG"
  | .ASTERISK => "ASTERISK"
  | .SLASH => "SLASH"
  | .LT => "LT"
  | .GT => "GT"
  | .EQ => "EQ"
  | .NOT_EQ => "NOT_EQ"
  | .COMMA => "COMMA"
  | .SEMICOLON => "SEMICOLON"
  | .LPAREN => "LPAREN"
  | .RPAREN => "RPAREN"
  | .LBRACE => "LBRACE"
  | .RBRACE => "RBRACE"
  | .LBRACKET => "LBRACKET"
  | .RBRACKET => "RBRACKET"
  | .COLON => "COLON"
  | .FUNCTION => "FUNCTION"
  | .LET => "LET"
  | .TRUE => "TRUE"
  | .FALSE => "FALSE"
  | .IF => "IF"
  | .ELSE => "ELSE"
  | .RETURN => "RETURN"

/-- Python `str()` of a `TokenType` member, `"TokenType.<member>"`
(the default `Enum.__str__`; the overridden `__repr__` is not used by
f-strings). -/
def pyStr (t : TokenType) : String := "TokenType." ++ t.name

end TokenType

/-- `KEYWORDS` dict and `lookup_ident` of `token_type.py`. -/
def lookup_ident (ident : String) : TokenType :=
  if ident = "fn" then .FUNCTION
  else if ident = "let" then .LET
  else if ident = "true" then .TRUE
  else if ident = "false" then .FALSE
  else if ident = "if" then .IF
  else if ident = "else" then .ELSE
  else if ident = "return" then .RETURN
  else .IDENT

/-- `Token` of `token.py`. -/
structure Token where
  token_type : TokenType
  literal : String
  deriving DecidableEq, Repr

/-- `Token.__repr__` of `token.py`: the word `Token` followed by the
parenthesised `str()` of the token type and the literal (Python falls
back to `__repr__` when a `Token` is interpolated into an f-string). -/
def Token.pyRepr (t : Token) : String :=
  "Token(" ++ t.token_type.pyStr ++ ", " ++ t.literal ++ ")"

/-- `EMPTY_CHAR` of `lexer.py` (`"\u0000"`). -/
def EMPTY_CHAR : Char := '\u0000'

/-- `WHITESPACE` of `lexer.py`. -/
def isWhitespaceChar (c : Char) : Bool :=
  c = ' ' || c = '\t' || c = '\n' || c = '\r'

/-- The mutable state of a `Lexer` (`lexer.py`): `_input`, `_position`,
`_read_position`, `_char`. -/
structure LexerState where
  input : List Char
  position : Nat
  read_position : Nat
  char : Char
  deriving Repr

namespace Lexer

/-- `Lexer._read_char`. -/
def read_char (l : LexerState) : LexerState :=
  let c := if l.read_position ≥ l.input.length then EMPTY_CHAR
           else l.input.getD l.read_position EMPTY_CHAR
  { l with char := c, position := l.read_position,
           read_position := l.read_position + 1 }

/-- `Lexer.__init__`: store the input and perform one `_read_char`. -/
def init (input : String) : LexerState :=
  read_char { input := input.data, position := 0, read_position := 0,
              char := EMPTY_CHAR }

/-- `Lexer.peek_char`. -/
def peek_char (l : LexerState) : Char :=
  if l.read_position ≥ l.input.length then EMPTY_CHAR
  else l.input.getD l.read_position EMPTY_CHAR

/-- `Lexer._is_letter`: `self._char.isalpha() or self._char == "_"`
(ASCII reading of `isalpha`). -/
def is_letter (l : LexerState) : Bool := l.char.isAlpha || l.char = '_'

/-- `Lexer._is_digit`. -/
def is_digit (l : LexerState) : Bool := l.char.isDigit

/-- `Lexer._skip_whitespace`, fuel recursion for the `while` loop. -/
def skip_whitespace : Nat → LexerState → LexerState
  | 0, l => l
  | fuel + 1, l =>
    if isWhitespaceChar l.char then skip_whitespace fuel (read_char l) else l

/-- Python slice `self._input[a : b]`. -/
def slice (input : List Char) (a b : Nat) : String :=
  String.mk ((input.drop a).take (b - a))

/-- Loop of `Lexer._read_identifier`; returns the final state. -/
def read_identifier_loop : Nat → LexerState → LexerState
  | 0, l => l
  | fuel + 1, l =>
    if is_letter l then read_identifier_loop fuel (read_char l) else l

/-- `Lexer._read_identifier`. -/
def read_identifier (l : LexerState) : String × LexerState :=
  let position := l.position
  let l' := read_identifier_loop (l.input.length + 2) l
  (slice l'.input position l'.position, l')

/-- Loop of `Lexer._read_number`. -/
def read_number_loop : Nat → LexerState → LexerState
  | 0, l => l
  | fuel + 1, l =>
    if is_digit l then read_number_loop fuel (read_char l) else l

/-- `Lexer._read_number`. -/
def read_number (l : LexerState) : String × LexerState :=
  let position := l.position
  let l' := read_number_loop (l.input.length + 2) l
  (slice l'.input position l'.position, l')

/-- Loop of `Lexer._read_string`: `read_char` until `"` or `EMPTY_CHAR`. -/
def read_string_loop : Nat → LexerState → LexerState
  | 0, l => l
  | fuel + 1, l =>
    let l' := read_char l
    if l'.char = '"' || l'.char = EMPTY_CHAR then l'
    else read_string_loop fuel l'

/-- `Lexer._read_string`. -/
def read_string (l : LexerState) : String × LexerState :=
  let position := l.position + 1
  let l' := read_string_loop (l.input.length + 2) l
  (slice l'.input position l'.position, l')

/-- `Lexer.next_token`. -/
def next_token (l₀ : LexerState) : Token × LexerState :=
  let l := skip_whitespace (l₀.input.length + 2) l₀
  if l.char = '=' then
    if peek_char l = '=' then
      let l := read_char l
      (⟨.EQ, "=="⟩, read_char l)
    else (⟨.ASSIGN, String.mk [l.char]⟩, read_char l)
  else if l.char = '+' then (⟨.PLUS, String.mk [l.char]⟩, read_char l)
  else if l.char = '-' then (⟨.MINUS, String.mk [l.char]⟩, read_char l)
  else if l.char = '!' then
    if peek_char l = '=' then
      let l := read_char l
      (⟨.NOT_EQ, "!="⟩, read_char l)
    else (⟨.BANG, String.mk [l.char]⟩, read_char l)
  else if l.char = '/' then (⟨.SLASH, String.mk [l.char]⟩, read_char l)
  else if l.char = '*' then (⟨.ASTERISK, String.mk [l.char]⟩, read_char l)
  else if l.char = '<' then (⟨.LT, String.mk [l.char]⟩, read_char l)
  else if l.char = '>' then (⟨.GT, String.mk [l.char]⟩, read_char l)
  else if l.char = ';' then (⟨.SEMICOLON, String.mk [l.char]⟩, read_char l)
  else if l.char = '(' then (⟨.LPAREN, String.mk [l.char]⟩, read_char l)
  else if l.char = ')' then (⟨.RPAREN, String.mk [l.char]⟩, read_char l)
  else if l.char = ',' then (⟨.COMMA, String.mk [l.char]⟩, read_char l)
  else if l.char = '\x7b' then (⟨.LBRACE, String.mk [l.char]⟩, read_char l)
  else if l.char = '\x7d' then (⟨.RBRACE, String.mk [l.char]⟩, read_char l)
  else if l.char = '"' then
    let (s, l') := read_string l
    (⟨.STRING, s⟩, read_char l')
  else if l.char = EMPTY_CHAR then (⟨.EOF, ""⟩, read_char l)
  else if is_letter l then
    -- identifier branch returns without the trailing `_read_char`
    let (identifier, l') := read_identifier l
    (⟨lookup_ident identifier, identifier⟩, l')
  else if is_digit l then
    let (number, l') := read_number l
    (⟨.INT, number⟩, l')
  else (⟨.ILLEGAL, String.mk [l.char]⟩, read_char l)

/-- `Lexer.__iter__`: all tokens up to and including the first `EOF`. -/
def lex_all_loop : Nat → LexerState → List Token
  | 0, _ => []
  | fuel + 1, l =>
    let (t, l') := next_token l
    if t.token_type = .EOF then [t] else t :: lex_all_loop fuel l'

/-- All tokens (`EOF` included) of an input string. -/
def lex_all (input : String) : List Token :=
  lex_all_loop (input.length + 2) (init input)

end Lexer

example : Lexer.lex_all "+" = [⟨.PLUS, "+"⟩, ⟨.EOF, ""⟩] := by decide
example : Lexer.lex_all "[" = [⟨.ILLEGAL, "["⟩, ⟨.EOF, ""⟩] := by decide
example : Lexer.lex_all "==;" =
    [⟨.EQ, "=="⟩, ⟨.SEMICOLON, ";"⟩, ⟨.EOF, ""⟩] := by decide
example : Lexer.lex_all "let x = 5;" =
    [⟨.LET, "let"⟩, ⟨.IDENT, "x"⟩, ⟨.ASSIGN, "="⟩, ⟨.INT, "5"⟩,
     ⟨.SEMICOLON, ";"⟩, ⟨.EOF, ""⟩] := by decide
example : Lexer.lex_all "\"foo bar\"" = [⟨.STRING, "foo bar"⟩, ⟨.EOF, ""⟩] := by
  decide

/-!
## AST (`ast.py`)

`BlockStatement` is its list of statements: neither the parser output
comparisons nor `eval.py` ever use the token a block carries.  A Python
`None` sitting in an expression slot (possible because
`_parse_let_statement` and `_parse_infix_expression` store unchecked
results) is the explicit constructor `Expr.pynone`; `Eval.eval` on it
falls past the `IntegerLiteral` case to the `ast.HashLiteral` check of
`eval.py` line 90 and raises `AttributeError` (the trailing
`raise NotImplementedError` is unreachable).  `ast.py` defines no
`HashLiteral` class (although `eval.py` and `parser_test.py` refer to
one), so the AST has no hash node.
-/

mutual

inductive Expr where
  | pynone : Expr
  | identifier (token : Token) (value : String)
  | boolean (token : Token) (value : Bool)
  | integerLiteral (token : Token) (value : Int)
  | stringLiteral (token : Token) (value : String)
  | prefixExpression (token : Token) (operator : String) (right : Expr)
  | infixExpression (token : Token) (left : Expr) (operator : String)
      (right : Expr)
  | ifExpression (token : Token) (condition : Expr)
      (consequence : List Stmt) (alternative : Option (List Stmt))
  | functionLiteral (token : Token) (parameters : List (Token × String))
      (body : List Stmt)
  | callExpression (token : Token) (function : Expr)
      (arguments : List Expr)
  | arrayLiteral (token : Token) (elements : List Expr)
  | indexExpression (token : Token) (left : Expr) (index : Expr)

inductive Stmt where
  | letStatement (token : Token) (name : Token × String) (expression : Expr)
  | returnStatement (token : Token) (return_value : Expr)
  | expressionStatement (token : Token) (expression : Expr)

end

/-!
## Parser (`parser.py`)

Every `while` loop and every recursive parse function takes explicit fuel;
top-level calls receive fuel far above the number of tokens, so the
fuel-out branches (which return the failure value of the corresponding
function) are never taken on the concrete inputs of the theorems below.
-/

/-- `Precedence` enum values (`parser.py`). -/
def Precedence.LOWEST : Nat := 1
def Precedence.EQUALS : Nat := 2
def Precedence.LESSGREATER : Nat := 3
def Precedence.SUM : Nat := 4
def Precedence.PRODUCT : Nat := 5
def Precedence.PREFIX : Nat := 6
def Precedence.CALL : Nat := 7
def Precedence.INDEX : Nat := 8

/-- `PRECEDENCES` dict of `parser.py`. -/
def PRECEDENCES : TokenType → Option Nat
  | .EQ => some Precedence.EQUALS
  | .NOT_EQ => some Precedence.EQUALS
  | .LT => some Precedence.LESSGREATER
  | .GT => some Precedence.LESSGREATER
  | .PLUS => some Precedence.SUM
  | .MINUS => some Precedence.SUM
  | .SLASH => some Precedence.PRODUCT
  | .ASTERISK => some Precedence.PRODUCT
  | .LPAREN => some Precedence.CALL
  | .LBRACKET => some Precedence.INDEX
  | _ => none

/-- Mutable state of a `Parser`: `_lexer`, `_errors`, `_current_token`,
`_peek_token`. -/
structure ParserState where
  lexer : LexerState
  errors : List String
  current_token : Token
  peek_token : Token

namespace Parser

/-- `Parser._next_token`. -/
def next_token (p : ParserState) : ParserState :=
  let (t, lx) := Lexer.next_token p.lexer
  { p with current_token := p.peek_token, peek_token := t, lexer := lx }

/-- `Parser.__init__` (minus the handler dicts, which are translated as the
dispatch matches inside `parse_expression`). -/
def init (input : String) : ParserState :=
  next_token (next_token
    { lexer := Lexer.init input, errors := [],
      current_token := ⟨.ILLEGAL, ""⟩, peek_token := ⟨.ILLEGAL, ""⟩ })

/-- `Parser._current_token_is`. -/
def current_token_is (p : ParserState) (t : TokenType) : Bool :=
  p.current_token.token_type = t

/-- `Parser._peek_token_is`. -/
def peek_token_is (p : ParserState) (t : TokenType) : Bool :=
  p.peek_token.token_type = t

/-- `Parser._peek_error`. -/
def peek_error (p : ParserState) (t : TokenType) : ParserState :=
  let message := "expected next token to be " ++ t.pyStr ++ ", got "
    ++ p.peek_token.token_type.pyStr ++ " instead"
  { p with errors := p.errors ++ [message] }

/-- `Parser._expect_peek`. -/
def expect_peek (p : ParserState) (t : TokenType) : Bool × ParserState :=
  if peek_token_is p t then (true, next_token p)
  else (false, peek_error p t)

/-- `Parser._peek_precedence`. -/
def peek_precedence (p : ParserState) : Nat :=
  (PRECEDENCES p.peek_token.token_type).getD Precedence.LOWEST

/-- `Parser._current_precedence`. -/
def current_precedence (p : ParserState) : Nat :=
  (PRECEDENCES p.current_token.token_type).getD Precedence.LOWEST

/-- `Parser._parse_identifier`. -/
def parse_identifier (p : ParserState) : Option Expr × ParserState :=
  (some (.identifier p.current_token p.current_token.literal), p)

/-- `Parser._parse_boolean`. -/
def parse_boolean (p : ParserState) : Option Expr × ParserState :=
  (some (.boolean p.current_token (current_token_is p .TRUE)), p)

/-- `Parser._parse_string_literal`. -/
def parse_string_literal (p : ParserState) : Option Expr × ParserState :=
  (some (.stringLiteral p.current_token p.current_token.literal), p)

/-- Python `int(...)` on the digit-only literals the lexer produces for
`INT` tokens (`None` on anything else, standing for `ValueError`). -/
def int_of_literal (s : String) : Option Int :=
  if s.data ≠ [] ∧ s.data.all Char.isDigit then
    some (s.data.foldl (fun acc c => acc * 10 + ((c.toNat : Int) - 48)) 0)
  else none

/-- `Parser._parse_integer_literal` (`int(...)` on the digit-only literal the
lexer produced; the `ValueError` branch records the parse error). -/
def parse_integer_literal (p : ParserState) : Option Expr × ParserState :=
  match int_of_literal p.current_token.literal with
  | some value => (some (.integerLiteral p.current_token value), p)
  | none =>
    let message := "could not parse " ++ p.current_token.literal
      ++ " as integer"
    (none, { p with errors := p.errors ++ [message] })

mutual

/-- Loop of `Parser.parse_program`. -/
def parse_program_loop (fuel : Nat) (acc : List Stmt) (p : ParserState) :
    List Stmt × ParserState :=
  match fuel with
  | 0 => (acc, p)
  | fuel + 1 =>
    if current_token_is p .EOF then (acc, p)
    else
      let (s?, p) := parse_statement fuel p
      let acc := match s? with
        | some s => acc ++ [s]
        | none => acc
      parse_program_loop fuel acc (next_token p)

termination_by structural fuel
/-- `Parser._parse_statement`. -/
def parse_statement (fuel : Nat) (p : ParserState) :
    Option Stmt × ParserState :=
  match fuel with
  | 0 => (none, p)
  | fuel + 1 =>
    match p.current_token.token_type with
    | .LET => parse_let_statement fuel p
    | .RETURN => parse_return_statment fuel p
    | _ => parse_expression_statement fuel p

termination_by structural fuel
/-- `Parser._parse_expression_statement`. -/
def parse_expression_statement (fuel : Nat) (p : ParserState) :
    Option Stmt × ParserState :=
  match fuel with
  | 0 => (none, p)
  | fuel + 1 =>
    let token := p.current_token
    let (e?, p) := parse_expression fuel Precedence.LOWEST p
    match e? with
    | none => (none, p)
    | some e =>
      let p := if peek_token_is p .SEMICOLON then next_token p else p
      (some (.expressionStatement token e), p)

termination_by structural fuel
/-- `Parser._parse_let_statement` (the parsed value is stored unchecked, so
a failed value parse stores Python `None`, i.e. `Expr.pynone`). -/
def parse_let_statement (fuel : Nat) (p : ParserState) :
    Option Stmt × ParserState :=
  match fuel with
  | 0 => (none, p)
  | fuel + 1 =>
    let token := p.current_token
    let (ok, p) := expect_peek p .IDENT
    if !ok then (none, p)
    else
      let name := (p.current_token, p.current_token.literal)
      let (ok, p) := expect_peek p .ASSIGN
      if !ok then (none, p)
      else
        let p := next_token p
        let (value?, p) := parse_expression fuel Precedence.LOWEST p
        let p := if peek_token_is p .SEMICOLON then next_token p else p
        (some (.letStatement token name (value?.getD .pynone)), p)

termination_by structural fuel
/-- `Parser._parse_return_statment` (sic). -/
def parse_return_statment (fuel : Nat) (p : ParserState) :
    Option Stmt × ParserState :=
  match fuel with
  | 0 => (none, p)
  | fuel + 1 =>
    let token := p.current_token
    let p := next_token p
    let (rv?, p) := parse_expression fuel Precedence.LOWEST p
    match rv? with
    | none => (none, p)
    | some rv =>
      let p := if peek_token_is p .SEMICOLON then next_token p else p
      (some (.returnStatement token rv), p)

termination_by structural fuel
/-- `Parser._parse_expression`: prefix dispatch (the `_prefix_parse_fns`
dict) followed by the infix loop. -/
def parse_expression (fuel : Nat) (precedence : Nat) (p : ParserState) :
    Option Expr × ParserState :=
  match fuel with
  | 0 => (none, p)
  | fuel + 1 =>
    let dispatched : Option (Option Expr × ParserState) :=
      match p.current_token.token_type with
      | .IDENT => some (parse_identifier p)
      | .INT => some (parse_integer_literal p)
      | .BANG => some (parse_prefix_expression fuel p)
      | .MINUS => some (parse_prefix_expression fuel p)
      | .TRUE => some (parse_boolean p)
      | .FALSE => some (parse_boolean p)
      | .LPAREN => some (parse_grouped_expression fuel p)
      | .IF => some (parse_if_expression fuel p)
      | .FUNCTION => some (parse_function_literal fuel p)
      | .STRING => some (parse_string_literal p)
      | .LBRACKET => some (parse_array_literal fuel p)
      | _ => none
    match dispatched with
    | none =>
      let message := "no prefix parse function for "
        ++ p.current_token.pyRepr
      (none, { p with errors := p.errors ++ [message] })
    | some (left?, p) => parse_expression_loop fuel precedence left? p

termination_by structural fuel
/-- `while` loop of `Parser._parse_expression`, with the `_infix_parse_fns`
dispatch inlined. -/
def parse_expression_loop (fuel : Nat) (precedence : Nat)
    (left? : Option Expr) (p : ParserState) : Option Expr × ParserState :=
  match fuel with
  | 0 => (left?, p)
  | fuel + 1 =>
    if !(peek_token_is p .SEMICOLON) && precedence < peek_precedence p then
      match p.peek_token.token_type with
      | .PLUS | .MINUS | .SLASH | .ASTERISK | .EQ | .NOT_EQ | .LT | .GT =>
        let p := next_token p
        let (left?, p) := parse_infix_expression fuel left? p
        parse_expression_loop fuel precedence left? p
      | .LPAREN =>
        let p := next_token p
        let (left?, p) := parse_call_expression fuel left? p
        parse_expression_loop fuel precedence left? p
      | .LBRACKET =>
        let p := next_token p
        let (left?, p) := parse_index_expression fuel left? p
        parse_expression_loop fuel precedence left? p
      | _ => (left?, p)
    else (left?, p)

termination_by structural fuel
/-- `Parser._parse_prefix_expression`. -/
def parse_prefix_expression (fuel : Nat) (p : ParserState) :
    Option Expr × ParserState :=
  match fuel with
  | 0 => (none, p)
  | fuel + 1 =>
    let token := p.current_token
    let operator := token.literal
    let p := next_token p
    let (right?, p) := parse_expression fuel Precedence.PREFIX p
    match right? with
    | none => (none, p)
    | some right => (some (.prefixExpression token operator right), p)

termination_by structural fuel
/-- `Parser._parse_infix_expression` (called with the working value of the loop,
which may be Python `None`). -/
def parse_infix_expression (fuel : Nat) (left? : Option Expr)
    (p : ParserState) : Option Expr × ParserState :=
  match fuel with
  | 0 => (none, p)
  | fuel + 1 =>
    let token := p.current_token
    let operator := token.literal
    let precedence := current_precedence p
    let p := next_token p
    let (right?, p) := parse_expression fuel precedence p
    match right? with
    | none => (none, p)
    | some right =>
      (some (.infixExpression token (left?.getD .pynone) operator right), p)

termination_by structural fuel
/-- `Parser._parse_grouped_expression` (the inner expression is returned
unchecked, so it may be `None`). -/
def parse_grouped_expression (fuel : Nat) (p : ParserState) :
    Option Expr × ParserState :=
  match fuel with
  | 0 => (none, p)
  | fuel + 1 =>
    let p := next_token p
    let (e?, p) := parse_expression fuel Precedence.LOWEST p
    let (ok, p) := expect_peek p .RPAREN
    if !ok then (none, p) else (e?, p)

termination_by structural fuel
/-- `Parser._parse_if_expression`. -/
def parse_if_expression (fuel : Nat) (p : ParserState) :
    Option Expr × ParserState :=
  match fuel with
  | 0 => (none, p)
  | fuel + 1 =>
    let token := p.current_token
    let (ok, p) := expect_peek p .LPAREN
    if !ok then (none, p)
    else
      let p := next_token p
      let (condition?, p) := parse_expression fuel Precedence.LOWEST p
      match condition? with
      | none => (none, p)
      | some condition =>
        let (ok, p) := expect_peek p .RPAREN
        if !ok then (none, p)
        else
          let (ok, p) := expect_peek p .LBRACE
          if !ok then (none, p)
          else
            let (consequence, p) := parse_block_statement fuel p
            if peek_token_is p .ELSE then
              let p := next_token p
              let (ok, p) := expect_peek p .LBRACE
              if !ok then (none, p)
              else
                let (alternative, p) := parse_block_statement fuel p
                (some (.ifExpression token condition consequence
                  (some alternative)), p)
            else
              (some (.ifExpression token condition consequence none), p)

termination_by structural fuel
/-- `Parser._parse_function_literal`. -/
def parse_function_literal (fuel : Nat) (p : ParserState) :
    Option Expr × ParserState :=
  match fuel with
  | 0 => (none, p)
  | fuel + 1 =>
    let token := p.current_token
    let (ok, p) := expect_peek p .LPAREN
    if !ok then (none, p)
    else
      let (parameters, p) := parse_function_parameters fuel p
      let (ok, p) := expect_peek p .LBRACE
      if !ok then (none, p)
      else
        let (body, p) := parse_block_statement fuel p
        (some (.functionLiteral token parameters body), p)

termination_by structural fuel
/-- `Parser._parse_function_parameters`. -/
def parse_function_parameters (fuel : Nat) (p : ParserState) :
    List (Token × String) × ParserState :=
  match fuel with
  | 0 => ([], p)
  | fuel + 1 =>
    if peek_token_is p .RPAREN then ([], next_token p)
    else
      let p := next_token p
      let identifiers := [(p.current_token, p.current_token.literal)]
      let (identifiers, p) := parse_function_parameters_loop fuel identifiers p
      let (ok, p) := expect_peek p .RPAREN
      if !ok then ([], p) else (identifiers, p)

termination_by structural fuel
/-- `while` loop of `Parser._parse_function_parameters`. -/
def parse_function_parameters_loop (fuel : Nat)
    (identifiers : List (Token × String)) (p : ParserState) :
    List (Token × String) × ParserState :=
  match fuel with
  | 0 => (identifiers, p)
  | fuel + 1 =>
    if peek_token_is p .COMMA then
      let p := next_token (next_token p)
      parse_function_parameters_loop fuel
        (identifiers ++ [(p.current_token, p.current_token.literal)]) p
    else (identifiers, p)

termination_by structural fuel
/-- `Parser._parse_call_expression`. -/
def parse_call_expression (fuel : Nat) (left? : Option Expr)
    (p : ParserState) : Option Expr × ParserState :=
  match fuel with
  | 0 => (none, p)
  | fuel + 1 =>
    let token := p.current_token
    let (arguments, p) := parse_expression_list fuel .RPAREN p
    (some (.callExpression token (left?.getD .pynone) arguments), p)

termination_by structural fuel
/-- `Parser._parse_array_literal`. -/
def parse_array_literal (fuel : Nat) (p : ParserState) :
    Option Expr × ParserState :=
  match fuel with
  | 0 => (none, p)
  | fuel + 1 =>
    let token := p.current_token
    let (elements, p) := parse_expression_list fuel .RBRACKET p
    (some (.arrayLiteral token elements), p)

termination_by structural fuel
/-- `Parser._parse_index_expression`. -/
def parse_index_expression (fuel : Nat) (left? : Option Expr)
    (p : ParserState) : Option Expr × ParserState :=
  match fuel with
  | 0 => (none, p)
  | fuel + 1 =>
    let token := p.current_token
    let p := next_token p
    let (index?, p) := parse_expression fuel Precedence.LOWEST p
    match index? with
    | none => (none, p)
    | some index =>
      let (ok, p) := expect_peek p .RBRACKET
      if !ok then (none, p)
      else (some (.indexExpression token (left?.getD .pynone) index), p)

termination_by structural fuel
/-- `Parser._parse_expression_list`. -/
def parse_expression_list (fuel : Nat) (endType : TokenType)
    (p : ParserState) : List Expr × ParserState :=
  match fuel with
  | 0 => ([], p)
  | fuel + 1 =>
    if peek_token_is p endType then ([], next_token p)
    else
      let p := next_token p
      let (e?, p) := parse_expression fuel Precedence.LOWEST p
      let expressions := match e? with
        | some e => [e]
        | none => []
      let (expressions, p) := parse_expression_list_loop fuel expressions p
      let (ok, p) := expect_peek p endType
      if !ok then ([], p) else (expressions, p)

termination_by structural fuel
/-- `while` loop of `Parser._parse_expression_list`. -/
def parse_expression_list_loop (fuel : Nat) (expressions : List Expr)
    (p : ParserState) : List Expr × ParserState :=
  match fuel with
  | 0 => (expressions, p)
  | fuel + 1 =>
    if peek_token_is p .COMMA then
      let p := next_token (next_token p)
      let (e?, p) := parse_expression fuel Precedence.LOWEST p
      let expressions := match e? with
        | some e => expressions ++ [e]
        | none => expressions
      parse_expression_list_loop fuel expressions p
    else (expressions, p)

termination_by structural fuel
/-- `Parser._parse_block_statement` (its token is dropped: nothing reads
it). -/
def parse_block_statement (fuel : Nat) (p : ParserState) :
    List Stmt × ParserState :=
  match fuel with
  | 0 => ([], p)
  | fuel + 1 =>
    let p := next_token p
    parse_block_statement_loop fuel [] p

termination_by structural fuel
/-- `while` loop of `Parser._parse_block_statement`. -/
def parse_block_statement_loop (fuel : Nat) (statements : List Stmt)
    (p : ParserState) : List Stmt × ParserState :=
  match fuel with
  | 0 => (statements, p)
  | fuel + 1 =>
    if !(current_token_is p .RBRACE) && !(current_token_is p .EOF) then
      let (s?, p) := parse_statement fuel p
      let statements := match s? with
        | some s => statements ++ [s]
        | none => statements
      parse_block_statement_loop fuel statements (next_token p)
    else (statements, p)

termination_by structural fuel
end

/-- Ample fuel for the concrete programs considered here. -/
def parseFuel : Nat := 99

/-- `Parser.parse_program` on a fresh parser over `input`. -/
def parse_program (input : String) : List Stmt × ParserState :=
  parse_program_loop parseFuel [] (init input)

/-- The `errors()` list of the parser after `parse_program`. -/
def parse_errors (input : String) : List String :=
  (parse_program input).2.errors

end Parser


/-!
## Object model (`object.py`)

The `ObjectType` member `INTEGER` carries the (evidently mistyped) enum
value `"ILLEGAL"`; no code path reads `.value`, only `.name` (in
`eval.py` error messages) and `str()` (in `builtins.py` error messages),
so only the member name is modelled.

Monkey values carry the allocation id `oid` that stands for Python object
identity (see the header).  `object.Hash`/`HashPair`/`HashKey` are omitted:
`ast.py` has no `HashLiteral`, the parser has no `LBRACE` prefix handler and
the lexer produces no `COLON`, so `_eval_hash_literal` (the only producer of
`Hash` values) and `_eval_hash_index_expression` are unreachable.
-/

/-- `ObjectType` enum of `object.py`. -/
inductive ObjectType where
  | INTEGER | BOOLEAN | NULL | RETURN_VALUE | ERROR | FUNCTION | STRING
  | ARRAY | HASH
  deriving DecidableEq, Repr

namespace ObjectType

/-- `.name` of an `ObjectType` member (used in `eval.py` messages). -/
def name : ObjectType → String
  | .INTEGER => "INTEGER"
  | .BOOLEAN => "BOOLEAN"
  | .NULL => "NULL"
  | .RETURN_VALUE => "RETURN_VALUE"
  | .ERROR => "ERROR"
  | .FUNCTION => "FUNCTION"
  | .STRING => "STRING"
  | .ARRAY => "ARRAY"
  | .HASH => "HASH"

/-- Python `str()` of an `ObjectType` member, `"ObjectType.<member>"`
(the default `Enum.__str__`, used by the f-strings of `builtins.py`;
`eval_test.py` line 229 confirms this rendering). -/
def pyStr (t : ObjectType) : String := "ObjectType." ++ t.name

end ObjectType

/-- The four names bound in the `builtins` table of `builtins.py`. -/
inductive BuiltinKind where
  | len | first | last | rest
  deriving DecidableEq, Repr

/-- Monkey runtime values (`object.py`).  `oid` is the allocation id
standing for Python object identity.  An `array` holds the heap reference
of the Python list carrying its elements; a `function` holds the heap
reference of its captured `Environment`. -/
inductive Value where
  | integer (value : Int) (oid : Nat)
  | string (value : String) (oid : Nat)
  | boolean (value : Bool) (oid : Nat)
  | null (oid : Nat)
  | returnValue (value : Value) (oid : Nat)
  | error (message : String) (oid : Nat)
  | function (parameters : List (Token × String)) (body : List Stmt)
      (env : Nat) (oid : Nat)
  | builtin (kind : BuiltinKind) (oid : Nat)
  | array (elementsRef : Nat) (oid : Nat)

namespace Value

/-- The `type()` method of each `object.py` class (`Builtin.type()` is
`FUNCTION`). -/
def type : Value → ObjectType
  | .integer _ _ => .INTEGER
  | .string _ _ => .STRING
  | .boolean _ _ => .BOOLEAN
  | .null _ => .NULL
  | .returnValue _ _ => .RETURN_VALUE
  | .error _ _ => .ERROR
  | .function _ _ _ _ => .FUNCTION
  | .builtin _ _ => .FUNCTION
  | .array _ _ => .ARRAY

/-- The allocation id of a value. -/
def oid : Value → Nat
  | .integer _ o | .string _ o | .boolean _ o | .null o
  | .returnValue _ o | .error _ o | .function _ _ _ o
  | .builtin _ o | .array _ o => o

end Value

/-- Python `==` between two Monkey objects: none of the `object.py` classes
defines `__eq__`, so `==` is object identity. -/
def pyEq (l r : Value) : Bool := l.oid = r.oid

/-- `Environment` frame (`environment.py`): the `store` dict and the
`outer` reference. -/
structure Frame where
  store : List (String × Value)
  outer : Option Nat

/-- Interpreter heap: the allocated environments, the Python lists that
carry array elements, and the next allocation id. -/
structure EvalState where
  frames : List Frame
  lists : List (List Value)
  next : Nat

/-- Draw a fresh allocation id (a Python object construction). -/
def allocOid (st : EvalState) : Nat × EvalState :=
  (st.next, { st with next := st.next + 1 })

/-- Allocate a fresh Python list holding `elements`. -/
def allocList (st : EvalState) (elements : List Value) : Nat × EvalState :=
  (st.lists.length, { st with lists := st.lists ++ [elements] })

/-- The module-level singletons of `eval.py` (`Eval.null`, `Eval.true`,
`Eval.false`), with the fixed ids 0, 1, 2. -/
def Eval.null : Value := .null 0
def Eval.true : Value := .boolean Bool.true 1
def Eval.false : Value := .boolean Bool.false 2

/-- The four module-level `object.Builtin` instances of `builtins.py`,
with the fixed ids 3..6. -/
def builtinLen : Value := .builtin .len 3
def builtinFirst : Value := .builtin .first 4
def builtinLast : Value := .builtin .last 5
def builtinRest : Value := .builtin .rest 6

/-- Dict update `self.store[name] = value` (replace in place, else append;
only insertion order beyond lookup semantics is irrelevant here). -/
def storeSet (store : List (String × Value)) (name : String) (value : Value) :
    List (String × Value) :=
  match store with
  | [] => [(name, value)]
  | (k, v) :: rest =>
    if k = name then (k, value) :: rest
    else (k, v) :: storeSet rest name value

/-- Dict lookup `name in self.store` / `self.store[name]`. -/
def storeGet (store : List (String × Value)) (name : String) : Option Value :=
  match store with
  | [] => none
  | (k, v) :: rest => if k = name then some v else storeGet rest name

/-- `Environment.get`, following the `outer` chain.  Fuel bounds the chain;
`outer` always points to an earlier frame, so `frames.length` steps
suffice. -/
def envGet (frames : List Frame) : Nat → Nat → String → Option Value
  | 0, _, _ => none
  | fuel + 1, ref, name =>
    match frames.getD ref ⟨[], none⟩ with
    | frame =>
      match storeGet frame.store name with
      | some v => some v
      | none =>
        match frame.outer with
        | some outerRef => envGet frames fuel outerRef name
        | none => none

/-- `Environment.set` on the frame `ref` (returns the heap with the frame
updated; the Python method returns `value`, which call sites use). -/
def envSet (st : EvalState) (ref : Nat) (name : String) (value : Value) :
    EvalState :=
  match st.frames.getD ref ⟨[], none⟩ with
  | frame =>
    { st with
      frames := st.frames.set ref { frame with store := storeSet frame.store name value } }

/-- `Environment.new_enclosed_environment`: allocate a frame whose `outer`
is the given environment. -/
def newEnclosedEnvironment (st : EvalState) (outer : Nat) : Nat × EvalState :=
  (st.frames.length, { st with frames := st.frames ++ [⟨[], some outer⟩] })

/-- Host (Python) exceptions the interpreter never catches, plus the
fuel-exhaustion marker of the embedding (never hit on the inputs below).
`attributeError` is the `AttributeError` raised by the reference to the
nonexistent `ast.HashLiteral` at `eval.py` line 90. -/
inductive Exn where
  | outOfFuel | zeroDivision | indexError | attributeError
  deriving DecidableEq, Repr

/-- `len_fn` of `builtins.py` (`str()` of the `ObjectType`, hence
`ObjectType.<NAME>` in the unsupported-type message). -/
def len_fn (args : List Value) (st : EvalState) :
    Except Exn (Value × EvalState) :=
  if args.length ≠ 1 then
    let (o, st) := allocOid st
    .ok (.error ("wrong number of arguments. got=" ++ toString args.length
      ++ ", want=1") o, st)
  else
    match args.getD 0 Eval.null with
    | .string s _ =>
      let (o, st) := allocOid st
      .ok (.integer s.length o, st)
    | .array ref _ =>
      let (o, st) := allocOid st
      .ok (.integer (st.lists.getD ref []).length o, st)
    | a =>
      let (o, st) := allocOid st
      .ok (.error ("argument to `len` not supported, got "
        ++ a.type.pyStr) o, st)

/-- `first_fn` of `builtins.py`; note the **fresh** `object.Null()` on an
empty array. -/
def first_fn (args : List Value) (st : EvalState) :
    Except Exn (Value × EvalState) :=
  if args.length ≠ 1 then
    let (o, st) := allocOid st
    .ok (.error ("wrong number of arguments. got=" ++ toString args.length
      ++ ", want=1") o, st)
  else
    match args.getD 0 Eval.null with
    | .array ref _ =>
      let elements := st.lists.getD ref []
      if elements.length > 0 then .ok (elements.getD 0 Eval.null, st)
      else
        let (o, st) := allocOid st
        .ok (.null o, st)
    | a =>
      let (o, st) := allocOid st
      .ok (.error ("argument to `first` must be ARRAY, got "
        ++ a.type.pyStr) o, st)

/-- `last_fn` of `builtins.py`. -/
def last_fn (args : List Value) (st : EvalState) :
    Except Exn (Value × EvalState) :=
  if args.length ≠ 1 then
    let (o, st) := allocOid st
    .ok (.error ("wrong number of arguments. got=" ++ toString args.length
      ++ ", want=1") o, st)
  else
    match args.getD 0 Eval.null with
    | .array ref _ =>
      let elements := st.lists.getD ref []
      if elements.length > 0 then
        .ok (elements.getD (elements.length - 1) Eval.null, st)
      else
        let (o, st) := allocOid st
        .ok (.null o, st)
    | a =>
      let (o, st) := allocOid st
      .ok (.error ("argument to `last` must be ARRAY, got "
        ++ a.type.pyStr) o, st)

/-- `rest_fn` of `builtins.py`: a new array over a new list
(`arr.elements[1:]`) when non-empty, a fresh `Null` otherwise. -/
def rest_fn (args : List Value) (st : EvalState) :
    Except Exn (Value × EvalState) :=
  if args.length ≠ 1 then
    let (o, st) := allocOid st
    .ok (.error ("wrong number of arguments. got=" ++ toString args.length
      ++ ", want=1") o, st)
  else
    match args.getD 0 Eval.null with
    | .array ref _ =>
      let elements := st.lists.getD ref []
      if elements.length > 0 then
        let (newRef, st) := allocList st (elements.drop 1)
        let (o, st) := allocOid st
        .ok (.array newRef o, st)
      else
        let (o, st) := allocOid st
        .ok (.null o, st)
    | a =>
      let (o, st) := allocOid st
      .ok (.error ("argument to `rest` must be ARRAY, got "
        ++ a.type.pyStr) o, st)

/-- `push_fn` of `builtins.py`: copy the element list, append, wrap in a new
`Array`; the original list cell is untouched. -/
def push_fn (args : List Value) (st : EvalState) :
    Except Exn (Value × EvalState) :=
  if args.length ≠ 2 then
    let (o, st) := allocOid st
    .ok (.error ("wrong number of arguments. got=" ++ toString args.length
      ++ ", want=2") o, st)
  else
    match args.getD 0 Eval.null with
    | .array ref _ =>
      let new_elements := (st.lists.getD ref []) ++ [args.getD 1 Eval.null]
      let (newRef, st) := allocList st new_elements
      let (o, st) := allocOid st
      .ok (.array newRef o, st)
    | a =>
      let (o, st) := allocOid st
      .ok (.error ("argument to `push` must be ARRAY, got "
        ++ a.type.pyStr) o, st)

/-- The `builtins` dict of `builtins.py`.  It binds exactly `len`, `first`,
`last`, `rest`; `push_fn` is defined in the module but never entered in the
table. -/
def builtins_table (name : String) : Option Value :=
  if name = "len" then some builtinLen
  else if name = "first" then some builtinFirst
  else if name = "last" then some builtinLast
  else if name = "rest" then some builtinRest
  else none

/-!
## Evaluator (`eval.py`)

`Eval.eval` dispatches on the node class; here it splits into `eval_stmt` /
`eval_expr` over the two AST sorts.  Recursion through function application
is fuel-bounded; `Exn.outOfFuel` never occurs at the fuel used below.
-/

/-- `Eval._native_bool_to_boolean_object`: hand back the two singletons. -/
def native_bool_to_boolean_object (value : Bool) : Value :=
  if value then Eval.true else Eval.false

/-- `Eval._is_error`. -/
def is_error (obj : Value) : Bool := obj.type = .ERROR

/-- `Eval._is_truthy`: a `match` against the singleton value patterns
`Eval.null` / `Eval.true` / `Eval.false`, i.e. identity comparisons (a
fresh `Null` from a builtin is *truthy* here). -/
def is_truthy (obj : Value) : Bool :=
  if pyEq obj Eval.null then false
  else if pyEq obj Eval.true then true
  else if pyEq obj Eval.false then false
  else true

/-- `Eval._unwrap_return_value`. -/
def unwrap_return_value (obj : Value) : Value :=
  match obj with
  | .returnValue v _ => v
  | _ => obj

/-- `Eval._eval_integer_infix_expression`.  Python `//` is floor division
(`Int.fdiv`); `5 / 0` raises `ZeroDivisionError` — there is no zero
guard in the source, so the division case throws the host exception. -/
def eval_integer_infix_expression (operator : String) (lv rv : Int)
    (st : EvalState) : Except Exn (Value × EvalState) :=
  if operator = "+" then
    let (o, st) := allocOid st
    .ok (.integer (lv + rv) o, st)
  else if operator = "-" then
    let (o, st) := allocOid st
    .ok (.integer (lv - rv) o, st)
  else if operator = "*" then
    let (o, st) := allocOid st
    .ok (.integer (lv * rv) o, st)
  else if operator = "/" then
    if rv = 0 then .error .zeroDivision
    else
      let (o, st) := allocOid st
      .ok (.integer (Int.fdiv lv rv) o, st)
  else if operator = "<" then .ok (native_bool_to_boolean_object (lv < rv), st)
  else if operator = ">" then .ok (native_bool_to_boolean_object (lv > rv), st)
  else if operator = "==" then
    .ok (native_bool_to_boolean_object (lv == rv), st)
  else if operator = "!=" then
    .ok (native_bool_to_boolean_object (lv != rv), st)
  else
    let (o, st) := allocOid st
    .ok (.error ("unknown operator: INTEGER " ++ operator ++ " INTEGER") o, st)

/-- `Eval._eval_string_infix_expression`. -/
def eval_string_infix_expression (operator : String) (lv rv : String)
    (st : EvalState) : Except Exn (Value × EvalState) :=
  if operator ≠ "+" then
    let (o, st) := allocOid st
    .ok (.error ("unknown operator: STRING " ++ operator ++ " STRING") o, st)
  else
    let (o, st) := allocOid st
    .ok (.string (lv ++ rv) o, st)

/-- `Eval._eval_infix_expression`.  Note the source order: the
Integer/Integer branch, then `==` / `!=` by object identity, and only
*then* the type-mismatch check. -/
def eval_infix_expression (operator : String) (left right : Value)
    (st : EvalState) : Except Exn (Value × EvalState) :=
  match left, right with
  | .integer lv _, .integer rv _ =>
    eval_integer_infix_expression operator lv rv st
  | _, _ =>
    if operator = "==" then .ok (native_bool_to_boolean_object (pyEq left right), st)
    else if operator = "!=" then
      .ok (native_bool_to_boolean_object (!pyEq left right), st)
    else if left.type ≠ right.type then
      let (o, st) := allocOid st
      .ok (.error ("type mismatch: " ++ left.type.name ++ " " ++ operator
        ++ " " ++ right.type.name) o, st)
    else
      match left, right with
      | .string lv _, .string rv _ =>
        eval_string_infix_expression operator lv rv st
      | _, _ =>
        let (o, st) := allocOid st
        .ok (.error ("unknown operator: " ++ left.type.name ++ " "
          ++ operator ++ " " ++ right.type.name) o, st)

/-- `Eval._eval_bang_operator_expression`: identity matches against the
three singletons. -/
def eval_bang_operator_expression (right : Value) : Value :=
  if pyEq right Eval.true then Eval.false
  else if pyEq right Eval.false then Eval.true
  else if pyEq right Eval.null then Eval.true
  else Eval.false

/-- `Eval._eval_minus_prefix_operator_expression`. -/
def eval_minus_prefix_operator_expression (right : Value) (st : EvalState) :
    Except Exn (Value × EvalState) :=
  match right with
  | .integer v _ =>
    let (o, st) := allocOid st
    .ok (.integer (-v) o, st)
  | _ =>
    let (o, st) := allocOid st
    .ok (.error ("unknown operator: -" ++ right.type.name) o, st)

/-- `Eval._eval_prefix_expression`. -/
def eval_prefix_expression (operator : String) (right : Value)
    (st : EvalState) : Except Exn (Value × EvalState) :=
  if operator = "!" then .ok (eval_bang_operator_expression right, st)
  else if operator = "-" then
    eval_minus_prefix_operator_expression right st
  else
    let (o, st) := allocOid st
    .ok (.error ("unknown operator: " ++ operator ++ right.type.name) o, st)

/-- `Eval._eval_array_index_expression` (unreachable at runtime: every
`IndexExpression` node already raises `AttributeError` at the dispatch
in `Eval.eval`, see `eval_expr`). -/
def eval_array_index_expression (ref : Nat) (idx : Int) (st : EvalState) :
    Except Exn (Value × EvalState) :=
  let elements := st.lists.getD ref []
  let mx : Int := (elements.length : Int) - 1
  if idx < 0 || idx > mx then .ok (Eval.null, st)
  else .ok (elements.getD idx.toNat Eval.null, st)

/-- `Eval._eval_index_expression`.  The `Hash` branch of the source is
omitted (no `Hash` value can be built, see the object-model header); the
whole function is unreachable at runtime, since every `IndexExpression`
node already raises `AttributeError` at the dispatch in `Eval.eval`. -/
def eval_index_expression (left index : Value) (st : EvalState) :
    Except Exn (Value × EvalState) :=
  match left, index with
  | .array ref _, .integer idx _ => eval_array_index_expression ref idx st
  | _, _ =>
    let (o, st) := allocOid st
    .ok (.error ("index operator not supported: " ++ left.type.name) o, st)

/-- `Eval._eval_identifier`: environment first, `builtins` table second. -/
def eval_identifier (name : String) (envRef : Nat) (st : EvalState) :
    Except Exn (Value × EvalState) :=
  match envGet st.frames (st.frames.length + 1) envRef name with
  | some v => .ok (v, st)
  | none =>
    match builtins_table name with
    | some b => .ok (b, st)
    | none =>
      let (o, st) := allocOid st
      .ok (.error ("identifier not found: " ++ name) o, st)

/-- `Eval._extend_function_env`: enclosed environment over the captured
environment of the function, parameters bound positionally; `args[index]` raises
`IndexError` when the call supplies fewer arguments than parameters. -/
def extend_function_env (parameters : List (Token × String)) (fnEnv : Nat)
    (args : List Value) (st : EvalState) : Except Exn (Nat × EvalState) :=
  let (ref, st) := newEnclosedEnvironment st fnEnv
  if args.length < parameters.length then .error .indexError
  else
    let st := (parameters.zip args).foldl
      (fun st pa => envSet st ref pa.1.2 pa.2) st
    .ok (ref, st)

/-- Dispatch of `fn.fn(args)` over the four table entries. -/
def apply_builtin (kind : BuiltinKind) (args : List Value) (st : EvalState) :
    Except Exn (Value × EvalState) :=
  match kind with
  | .len => len_fn args st
  | .first => first_fn args st
  | .last => last_fn args st
  | .rest => rest_fn args st

mutual

/-- `Eval._eval_program`: fresh `object.Null()` result, then the statement
loop. -/
def eval_program (fuel : Nat) (statements : List Stmt) (envRef : Nat)
    (st : EvalState) : Except Exn (Value × EvalState) :=
  match fuel with
  | 0 => .error .outOfFuel
  | fuel + 1 =>
    let (o, st) := allocOid st
    eval_program_loop fuel statements envRef (.null o) st

termination_by structural fuel
/-- `for` loop of `Eval._eval_program`: unwrap a `ReturnValue`, return an
`Error` as is. -/
def eval_program_loop (fuel : Nat) (statements : List Stmt) (envRef : Nat)
    (result : Value) (st : EvalState) : Except Exn (Value × EvalState) :=
  match fuel with
  | 0 => .error .outOfFuel
  | fuel + 1 =>
    match statements with
    | [] => .ok (result, st)
    | s :: rest =>
      match eval_stmt fuel s envRef st with
      | .error e => .error e
      | .ok (r, st) =>
        match r with
        | .returnValue v _ => .ok (v, st)
        | .error _ _ => .ok (r, st)
        | _ => eval_program_loop fuel rest envRef r st

termination_by structural fuel
/-- `Eval._eval_block_statements`: fresh `object.Null()` result, then the
statement loop. -/
def eval_block_statements (fuel : Nat) (statements : List Stmt)
    (envRef : Nat) (st : EvalState) : Except Exn (Value × EvalState) :=
  match fuel with
  | 0 => .error .outOfFuel
  | fuel + 1 =>
    let (o, st) := allocOid st
    eval_block_loop fuel statements envRef (.null o) st

termination_by structural fuel
/-- `for` loop of `Eval._eval_block_statements`: early return on
`ReturnValue` or `Error`, **without unwrapping**. -/
def eval_block_loop (fuel : Nat) (statements : List Stmt) (envRef : Nat)
    (result : Value) (st : EvalState) : Except Exn (Value × EvalState) :=
  match fuel with
  | 0 => .error .outOfFuel
  | fuel + 1 =>
    match statements with
    | [] => .ok (result, st)
    | s :: rest =>
      match eval_stmt fuel s envRef st with
      | .error e => .error e
      | .ok (r, st) =>
        match r with
        | .returnValue _ _ => .ok (r, st)
        | .error _ _ => .ok (r, st)
        | _ => eval_block_loop fuel rest envRef r st

termination_by structural fuel
/-- Statement cases of `Eval.eval`. -/
def eval_stmt (fuel : Nat) (s : Stmt) (envRef : Nat) (st : EvalState) :
    Except Exn (Value × EvalState) :=
  match fuel with
  | 0 => .error .outOfFuel
  | fuel + 1 =>
    match s with
    | .expressionStatement _ e => eval_expr fuel e envRef st
    | .returnStatement _ rv =>
      match eval_expr fuel rv envRef st with
      | .error ex => .error ex
      | .ok (v, st) =>
        if is_error v then .ok (v, st)
        else
          let (o, st) := allocOid st
          .ok (.returnValue v o, st)
    | .letStatement _ name e =>
      match eval_expr fuel e envRef st with
      | .error ex => .error ex
      | .ok (v, st) =>
        if is_error v then .ok (v, st)
        else .ok (v, envSet st envRef name.2 v)

termination_by structural fuel
/-- Expression cases of `Eval.eval`.  The `isinstance` chain of the
source checks `ast.HashLiteral` (line 90) **before** `ArrayLiteral`,
`IndexExpression`, `Boolean` and `StringLiteral`; since `ast.py` defines
no `HashLiteral`, those four node kinds — and `Expr.pynone`, which falls
past every earlier case — raise an uncaught `AttributeError` at dispatch
and never reach their own evaluation code. -/
def eval_expr (fuel : Nat) (e : Expr) (envRef : Nat) (st : EvalState) :
    Except Exn (Value × EvalState) :=
  match fuel with
  | 0 => .error .outOfFuel
  | fuel + 1 =>
    match e with
    | .pynone => .error .attributeError
    | .prefixExpression _ operator right =>
      match eval_expr fuel right envRef st with
      | .error ex => .error ex
      | .ok (r, st) =>
        if is_error r then .ok (r, st)
        else eval_prefix_expression operator r st
    | .infixExpression _ left operator right =>
      match eval_expr fuel left envRef st with
      | .error ex => .error ex
      | .ok (l, st) =>
        if is_error l then .ok (l, st)
        else
          match eval_expr fuel right envRef st with
          | .error ex => .error ex
          | .ok (r, st) =>
            if is_error r then .ok (r, st)
            else eval_infix_expression operator l r st
    | .ifExpression _ condition consequence alternative =>
      match eval_expr fuel condition envRef st with
      | .error ex => .error ex
      | .ok (c, st) =>
        if is_error c then .ok (c, st)
        else if is_truthy c then
          eval_block_statements fuel consequence envRef st
        else
          match alternative with
          | some alt => eval_block_statements fuel alt envRef st
          | none => .ok (Eval.null, st)
    | .functionLiteral _ parameters body =>
      let (o, st) := allocOid st
      .ok (.function parameters body envRef o, st)
    | .callExpression _ fnE arguments =>
      match eval_expr fuel fnE envRef st with
      | .error ex => .error ex
      | .ok (f, st) =>
        if is_error f then .ok (f, st)
        else
          match eval_expressions fuel arguments envRef st with
          | .error ex => .error ex
          | .ok (args, st) =>
            if args.length = 1 && is_error (args.getD 0 Eval.null) then
              .ok (args.getD 0 Eval.null, st)
            else apply_function fuel f args st
    | .identifier _ value => eval_identifier value envRef st
    | .integerLiteral _ v =>
      let (o, st) := allocOid st
      .ok (.integer v o, st)
    | .arrayLiteral _ _ => .error .attributeError
    | .indexExpression _ _ _ => .error .attributeError
    | .boolean _ _ => .error .attributeError
    | .stringLiteral _ _ => .error .attributeError

termination_by structural fuel
/-- `Eval._eval_expressions`: on the first `Error`, the singleton list of
that error is returned. -/
def eval_expressions (fuel : Nat) (exps : List Expr) (envRef : Nat)
    (st : EvalState) : Except Exn (List Value × EvalState) :=
  match fuel with
  | 0 => .error .outOfFuel
  | fuel + 1 =>
    match exps with
    | [] => .ok ([], st)
    | e :: rest =>
      match eval_expr fuel e envRef st with
      | .error ex => .error ex
      | .ok (v, st) =>
        if is_error v then .ok ([v], st)
        else
          match eval_expressions fuel rest envRef st with
          | .error ex => .error ex
          | .ok (vs, st) => .ok (v :: vs, st)

termination_by structural fuel
/-- `Eval._apply_function`. -/
def apply_function (fuel : Nat) (f : Value) (args : List Value)
    (st : EvalState) : Except Exn (Value × EvalState) :=
  match fuel with
  | 0 => .error .outOfFuel
  | fuel + 1 =>
    match f with
    | .function parameters body fnEnv _ =>
      match extend_function_env parameters fnEnv args st with
      | .error ex => .error ex
      | .ok (ref, st) =>
        match eval_block_statements fuel body ref st with
        | .error ex => .error ex
        | .ok (evaluated, st) => .ok (unwrap_return_value evaluated, st)
    | .builtin kind _ => apply_builtin kind args st
    | _ =>
      let (o, st) := allocOid st
      .ok (.error ("not a function: " ++ f.type.name) o, st)

termination_by structural fuel
end

/-- Ample evaluation fuel for the concrete programs considered here. -/
def evalFuel : Nat := 99

/-- `Environment.new_environment()` plus the module-level allocations:
singleton ids 0..6 are taken, fresh allocations start at 7. -/
def freshState : EvalState := { frames := [⟨[], none⟩], lists := [], next := 7 }

/-- The test harness pipeline of `eval_test.py::_test_eval`:
lex, parse (errors ignored), evaluate in a fresh environment. -/
def run_program (input : String) : Except Exn (Value × EvalState) :=
  let (program, _) := Parser.parse_program input
  eval_program evalFuel program 0 freshState

/-- Result value of the pipeline. -/
def runValue (input : String) : Except Exn Value :=
  match run_program input with
  | .ok (v, _) => .ok v
  | .error e => .error e

/-- `ObjectType` of the pipeline result. -/
def runType (input : String) : Except Exn ObjectType :=
  match runValue input with
  | .ok v => .ok v.type
  | .error e => .error e

/-- Carried integer of an Integer result. -/
def runInt (input : String) : Option Int :=
  match runValue input with
  | .ok (.integer v _) => some v
  | _ => none

/-- Carried boolean and allocation id of a Boolean result. -/
def runBoolOid (input : String) : Option (Bool × Nat) :=
  match runValue input with
  | .ok (.boolean b o) => some (b, o)
  | _ => none

/-- Message of an Error-value result. -/
def runMsg (input : String) : Option String :=
  match runValue input with
  | .ok (.error m _) => some m
  | _ => none

/-- Allocation id of a Null result. -/
def runNullOid (input : String) : Option Nat :=
  match runValue input with
  | .ok (.null o) => some o
  | _ => none

/-- Host exception of a run, when one escapes. -/
def runExn (input : String) : Option Exn :=
  match run_program input with
  | .error e => some e
  | .ok _ => none

/-!
## Claim theorems
-/

/-- The program of claim C2 (`eval_test.py::test_hash_literals` /
`test_hash_index_expressions` corpus). -/
def c2prog : String :=
  "let two = \"two\"; \x7b\"one\": 10 - 9, two: 1 + 1, \"thr\" + \"ee\": 6 / 2, 4: 4, true: 5, false: 6\x7d[\"two\"]"

/-- The nested-if program of claim C8. -/
def c8prog : String :=
  "if (10 > 1) \x7b if (10 > 1) \x7b return true + false; \x7d return 1; \x7d"

/-- The closure program of claim C9. -/
def c9prog : String :=
  "let newAdder = fn(x) \x7b fn(y) \x7b x + y \x7d; \x7d; let addTwo = newAdder(2); addTwo(2);"

/-- C1: evaluating `next_token` at the inputs of the claim.  The fourteen
punctuation characters the `match` in `Lexer.next_token` covers lex to
their kinds with the character as literal, followed by `EOF` — but `[`,
`]` and `:` have no `case` in the source and fall through to `ILLEGAL`,
not to `LBRACKET` / `RBRACKET` / `COLON` as the claim states (and as the
repository test `lexer_test.py` expects for `[` and `]`). -/
theorem c1_single_char_lexing :
    Lexer.lex_all "=" = [⟨.ASSIGN, "="⟩, ⟨.EOF, ""⟩] ∧
    Lexer.lex_all "+" = [⟨.PLUS, "+"⟩, ⟨.EOF, ""⟩] ∧
    Lexer.lex_all "-" = [⟨.MINUS, "-"⟩, ⟨.EOF, ""⟩] ∧
    Lexer.lex_all "!" = [⟨.BANG, "!"⟩, ⟨.EOF, ""⟩] ∧
    Lexer.lex_all "*" = [⟨.ASTERISK, "*"⟩, ⟨.EOF, ""⟩] ∧
    Lexer.lex_all "/" = [⟨.SLASH, "/"⟩, ⟨.EOF, ""⟩] ∧
    Lexer.lex_all "<" = [⟨.LT, "<"⟩, ⟨.EOF, ""⟩] ∧
    Lexer.lex_all ">" = [⟨.GT, ">"⟩, ⟨.EOF, ""⟩] ∧
    Lexer.lex_all "," = [⟨.COMMA, ","⟩, ⟨.EOF, ""⟩] ∧
    Lexer.lex_all ";" = [⟨.SEMICOLON, ";"⟩, ⟨.EOF, ""⟩] ∧
    Lexer.lex_all "(" = [⟨.LPAREN, "("⟩, ⟨.EOF, ""⟩] ∧
    Lexer.lex_all ")" = [⟨.RPAREN, ")"⟩, ⟨.EOF, ""⟩] ∧
    Lexer.lex_all "\x7b" = [⟨.LBRACE, "\x7b"⟩, ⟨.EOF, ""⟩] ∧
    Lexer.lex_all "\x7d" = [⟨.RBRACE, "\x7d"⟩, ⟨.EOF, ""⟩] ∧
    Lexer.lex_all "[" = [⟨.ILLEGAL, "["⟩, ⟨.EOF, ""⟩] ∧
    Lexer.lex_all "]" = [⟨.ILLEGAL, "]"⟩, ⟨.EOF, ""⟩] ∧
    Lexer.lex_all ":" = [⟨.ILLEGAL, ":"⟩, ⟨.EOF, ""⟩] := by
  decide



/-- One non-EOF iteration of the `parse_program` loop, used to assemble the
parse of `c2prog` statement by statement. -/
theorem parse_program_loop_step (fuel : Nat) (acc : List Stmt)
    (p : ParserState) (hne : Parser.current_token_is p .EOF = false) :
    Parser.parse_program_loop (fuel + 1) acc p =
      Parser.parse_program_loop fuel
        (match (Parser.parse_statement fuel p).1 with
         | some s => acc ++ [s]
         | none => acc)
        (Parser.next_token (Parser.parse_statement fuel p).2) := by
  rcases hs : Parser.parse_statement fuel p with ⟨s?, p'⟩
  simp only [Parser.parse_program_loop, hne, Bool.false_eq_true, if_false, hs]

/-- The EOF exit of the `parse_program` loop. -/
theorem parse_program_loop_stop (fuel : Nat) (acc : List Stmt)
    (p : ParserState) (heof : Parser.current_token_is p .EOF = true) :
    Parser.parse_program_loop (fuel + 1) acc p = (acc, p) := by
  simp only [Parser.parse_program_loop, heof, if_true]

/-- The fifteen parse errors recorded on `c2prog`, in order. -/
def c2errs : List String :=
  ["no prefix parse function for Token(TokenType.LBRACE, \x7b)",
   "no prefix parse function for Token(TokenType.ILLEGAL, :)",
   "no prefix parse function for Token(TokenType.COMMA, ,)",
   "no prefix parse function for Token(TokenType.ILLEGAL, :)",
   "no prefix parse function for Token(TokenType.COMMA, ,)",
   "no prefix parse function for Token(TokenType.ILLEGAL, :)",
   "no prefix parse function for Token(TokenType.COMMA, ,)",
   "no prefix parse function for Token(TokenType.ILLEGAL, :)",
   "no prefix parse function for Token(TokenType.COMMA, ,)",
   "no prefix parse function for Token(TokenType.ILLEGAL, :)",
   "no prefix parse function for Token(TokenType.COMMA, ,)",
   "no prefix parse function for Token(TokenType.ILLEGAL, :)",
   "no prefix parse function for Token(TokenType.RBRACE, \x7d)",
   "no prefix parse function for Token(TokenType.ILLEGAL, [)",
   "no prefix parse function for Token(TokenType.ILLEGAL, ])"]

/-- Parser state over `c2prog` with the given lexer coordinates, the first
`nerr` recorded errors, and the given current/peek tokens. -/
def c2state (pos rpos : Nat) (ch : Char) (nerr : Nat) (cur pk : Token) :
    ParserState :=
  ⟨⟨c2prog.data, pos, rpos, ch⟩, c2errs.take nerr, cur, pk⟩

/-- The fourteen statements `parse_program` salvages out of `c2prog`. -/
def c2stmts : List Stmt :=
  [.letStatement ⟨.LET, "let"⟩ (⟨.IDENT, "two"⟩, "two")
     (.stringLiteral ⟨.STRING, "two"⟩ "two"),
   .expressionStatement ⟨.STRING, "one"⟩ (.stringLiteral ⟨.STRING, "one"⟩ "one"),
   .expressionStatement ⟨.INT, "10"⟩
     (.infixExpression ⟨.MINUS, "-"⟩ (.integerLiteral ⟨.INT, "10"⟩ 10) "-"
       (.integerLiteral ⟨.INT, "9"⟩ 9)),
   .expressionStatement ⟨.IDENT, "two"⟩ (.identifier ⟨.IDENT, "two"⟩ "two"),
   .expressionStatement ⟨.INT, "1"⟩
     (.infixExpression ⟨.PLUS, "+"⟩ (.integerLiteral ⟨.INT, "1"⟩ 1) "+"
       (.integerLiteral ⟨.INT, "1"⟩ 1)),
   .expressionStatement ⟨.STRING, "thr"⟩
     (.infixExpression ⟨.PLUS, "+"⟩ (.stringLiteral ⟨.STRING, "thr"⟩ "thr") "+"
       (.stringLiteral ⟨.STRING, "ee"⟩ "ee")),
   .expressionStatement ⟨.INT, "6"⟩
     (.infixExpression ⟨.SLASH, "/"⟩ (.integerLiteral ⟨.INT, "6"⟩ 6) "/"
       (.integerLiteral ⟨.INT, "2"⟩ 2)),
   .expressionStatement ⟨.INT, "4"⟩ (.integerLiteral ⟨.INT, "4"⟩ 4),
   .expressionStatement ⟨.INT, "4"⟩ (.integerLiteral ⟨.INT, "4"⟩ 4),
   .expressionStatement ⟨.TRUE, "true"⟩ (.boolean ⟨.TRUE, "true"⟩ true),
   .expressionStatement ⟨.INT, "5"⟩ (.integerLiteral ⟨.INT, "5"⟩ 5),
   .expressionStatement ⟨.FALSE, "false"⟩ (.boolean ⟨.FALSE, "false"⟩ false),
   .expressionStatement ⟨.INT, "6"⟩ (.integerLiteral ⟨.INT, "6"⟩ 6),
   .expressionStatement ⟨.STRING, "two"⟩ (.stringLiteral ⟨.STRING, "two"⟩ "two")]

/-- The parse of `c2prog`, assembled one `parse_program` iteration at a
time (each step is a small reduction from a literal parser state). -/
theorem c2_parse_program :
    Parser.parse_program c2prog =
      (c2stmts, c2state 99 100 '\u0000' 15 ⟨.EOF, ""⟩ ⟨.EOF, ""⟩) := by
  calc Parser.parse_program c2prog
      = Parser.parse_program_loop 99 (c2stmts.take 0)
          (c2state 7 8 ' ' 0 ⟨.LET, "let"⟩ ⟨.IDENT, "two"⟩) := rfl
    _ = Parser.parse_program_loop 98 (c2stmts.take 1) (c2state 23 24 ':' 0 ⟨.LBRACE, "\x7b"⟩ ⟨.STRING, "one"⟩) :=
      parse_program_loop_step 98 (c2stmts.take 0) _ rfl
    _ = Parser.parse_program_loop 97 (c2stmts.take 1) (c2state 24 25 ' ' 1 ⟨.STRING, "one"⟩ ⟨.ILLEGAL, ":"⟩) :=
      parse_program_loop_step 97 (c2stmts.take 1) _ rfl
    _ = Parser.parse_program_loop 96 (c2stmts.take 2) (c2state 27 28 ' ' 1 ⟨.ILLEGAL, ":"⟩ ⟨.INT, "10"⟩) :=
      parse_program_loop_step 96 (c2stmts.take 1) _ rfl
    _ = Parser.parse_program_loop 95 (c2stmts.take 2) (c2state 29 30 ' ' 2 ⟨.INT, "10"⟩ ⟨.MINUS, "-"⟩) :=
      parse_program_loop_step 95 (c2stmts.take 2) _ rfl
    _ = Parser.parse_program_loop 94 (c2stmts.take 3) (c2state 36 37 ':' 2 ⟨.COMMA, ","⟩ ⟨.IDENT, "two"⟩) :=
      parse_program_loop_step 94 (c2stmts.take 2) _ rfl
    _ = Parser.parse_program_loop 93 (c2stmts.take 3) (c2state 37 38 ' ' 3 ⟨.IDENT, "two"⟩ ⟨.ILLEGAL, ":"⟩) :=
      parse_program_loop_step 93 (c2stmts.take 3) _ rfl
    _ = Parser.parse_program_loop 92 (c2stmts.take 4) (c2state 39 40 ' ' 3 ⟨.ILLEGAL, ":"⟩ ⟨.INT, "1"⟩) :=
      parse_program_loop_step 92 (c2stmts.take 3) _ rfl
    _ = Parser.parse_program_loop 91 (c2stmts.take 4) (c2state 41 42 ' ' 4 ⟨.INT, "1"⟩ ⟨.PLUS, "+"⟩) :=
      parse_program_loop_step 91 (c2stmts.take 4) _ rfl
    _ = Parser.parse_program_loop 90 (c2stmts.take 5) (c2state 50 51 ' ' 4 ⟨.COMMA, ","⟩ ⟨.STRING, "thr"⟩) :=
      parse_program_loop_step 90 (c2stmts.take 4) _ rfl
    _ = Parser.parse_program_loop 89 (c2stmts.take 5) (c2state 52 53 ' ' 5 ⟨.STRING, "thr"⟩ ⟨.PLUS, "+"⟩) :=
      parse_program_loop_step 89 (c2stmts.take 5) _ rfl
    _ = Parser.parse_program_loop 88 (c2stmts.take 6) (c2state 60 61 ' ' 5 ⟨.ILLEGAL, ":"⟩ ⟨.INT, "6"⟩) :=
      parse_program_loop_step 88 (c2stmts.take 5) _ rfl
    _ = Parser.parse_program_loop 87 (c2stmts.take 6) (c2state 62 63 ' ' 6 ⟨.INT, "6"⟩ ⟨.SLASH, "/"⟩) :=
      parse_program_loop_step 87 (c2stmts.take 6) _ rfl
    _ = Parser.parse_program_loop 86 (c2stmts.take 7) (c2state 67 68 ':' 6 ⟨.COMMA, ","⟩ ⟨.INT, "4"⟩) :=
      parse_program_loop_step 86 (c2stmts.take 6) _ rfl
    _ = Parser.parse_program_loop 85 (c2stmts.take 7) (c2state 68 69 ' ' 7 ⟨.INT, "4"⟩ ⟨.ILLEGAL, ":"⟩) :=
      parse_program_loop_step 85 (c2stmts.take 7) _ rfl
    _ = Parser.parse_program_loop 84 (c2stmts.take 8) (c2state 70 71 ',' 7 ⟨.ILLEGAL, ":"⟩ ⟨.INT, "4"⟩) :=
      parse_program_loop_step 84 (c2stmts.take 7) _ rfl
    _ = Parser.parse_program_loop 83 (c2stmts.take 8) (c2state 71 72 ' ' 8 ⟨.INT, "4"⟩ ⟨.COMMA, ","⟩) :=
      parse_program_loop_step 83 (c2stmts.take 8) _ rfl
    _ = Parser.parse_program_loop 82 (c2stmts.take 9) (c2state 76 77 ':' 8 ⟨.COMMA, ","⟩ ⟨.TRUE, "true"⟩) :=
      parse_program_loop_step 82 (c2stmts.take 8) _ rfl
    _ = Parser.parse_program_loop 81 (c2stmts.take 9) (c2state 77 78 ' ' 9 ⟨.TRUE, "true"⟩ ⟨.ILLEGAL, ":"⟩) :=
      parse_program_loop_step 81 (c2stmts.take 9) _ rfl
    _ = Parser.parse_program_loop 80 (c2stmts.take 10) (c2state 79 80 ',' 9 ⟨.ILLEGAL, ":"⟩ ⟨.INT, "5"⟩) :=
      parse_program_loop_step 80 (c2stmts.take 9) _ rfl
    _ = Parser.parse_program_loop 79 (c2stmts.take 10) (c2state 80 81 ' ' 10 ⟨.INT, "5"⟩ ⟨.COMMA, ","⟩) :=
      parse_program_loop_step 79 (c2stmts.take 10) _ rfl
    _ = Parser.parse_program_loop 78 (c2stmts.take 11) (c2state 86 87 ':' 10 ⟨.COMMA, ","⟩ ⟨.FALSE, "false"⟩) :=
      parse_program_loop_step 78 (c2stmts.take 10) _ rfl
    _ = Parser.parse_program_loop 77 (c2stmts.take 11) (c2state 87 88 ' ' 11 ⟨.FALSE, "false"⟩ ⟨.ILLEGAL, ":"⟩) :=
      parse_program_loop_step 77 (c2stmts.take 11) _ rfl
    _ = Parser.parse_program_loop 76 (c2stmts.take 12) (c2state 89 90 '\x7d' 11 ⟨.ILLEGAL, ":"⟩ ⟨.INT, "6"⟩) :=
      parse_program_loop_step 76 (c2stmts.take 11) _ rfl
    _ = Parser.parse_program_loop 75 (c2stmts.take 12) (c2state 90 91 '[' 12 ⟨.INT, "6"⟩ ⟨.RBRACE, "\x7d"⟩) :=
      parse_program_loop_step 75 (c2stmts.take 12) _ rfl
    _ = Parser.parse_program_loop 74 (c2stmts.take 13) (c2state 91 92 '\"' 12 ⟨.RBRACE, "\x7d"⟩ ⟨.ILLEGAL, "["⟩) :=
      parse_program_loop_step 74 (c2stmts.take 12) _ rfl
    _ = Parser.parse_program_loop 73 (c2stmts.take 13) (c2state 96 97 ']' 13 ⟨.ILLEGAL, "["⟩ ⟨.STRING, "two"⟩) :=
      parse_program_loop_step 73 (c2stmts.take 13) _ rfl
    _ = Parser.parse_program_loop 72 (c2stmts.take 13) (c2state 97 98 '\u0000' 14 ⟨.STRING, "two"⟩ ⟨.ILLEGAL, "]"⟩) :=
      parse_program_loop_step 72 (c2stmts.take 13) _ rfl
    _ = Parser.parse_program_loop 71 (c2stmts.take 14) (c2state 98 99 '\u0000' 14 ⟨.ILLEGAL, "]"⟩ ⟨.EOF, ""⟩) :=
      parse_program_loop_step 71 (c2stmts.take 13) _ rfl
    _ = Parser.parse_program_loop 70 (c2stmts.take 14) (c2state 99 100 '\u0000' 15 ⟨.EOF, ""⟩ ⟨.EOF, ""⟩) :=
      parse_program_loop_step 70 (c2stmts.take 14) _ rfl
    _ = (c2stmts, c2state 99 100 '\u0000' 15 ⟨.EOF, ""⟩ ⟨.EOF, ""⟩) :=
      parse_program_loop_stop 69 _ _ rfl

/-- C2: the parser has no `LBRACE` prefix handler, the lexer no `COLON`
and no brackets, so the hash-literal program of the claim does not parse
into a `HashLit` with an empty error list: fifteen parse errors are
recorded (contradicting the claim and the repository tests
`test_hash_literals` / `test_hash_index_expressions`). -/
theorem c2_hash_program_parse_errors :
    Parser.parse_errors c2prog = c2errs ∧ c2errs.length = 15 := by
  constructor
  · show (Parser.parse_program c2prog).2.errors = c2errs
    rw [c2_parse_program]
    rfl
  · rfl

/-- Heap with one two-element array cell, used to exercise `push_fn` at a
concrete input. -/
def pushDemoState : EvalState :=
  { frames := [⟨[], none⟩],
    lists := [[Value.integer 1 7, Value.integer 2 8]], next := 10 }

/-- C3: the `builtins` table does **not** bind `push` (only `len`,
`first`, `last`, `rest`), so the identifier `push` in a fresh environment
evaluates to the Error `identifier not found: push`, not to a Builtin.
The module-level `push_fn` itself behaves as the claim describes: applied
to the array `[1, 2]` (heap cell 0) and the value `3`, it returns a new
array over a fresh cell holding the old elements followed by `3`, and
cell 0 is unchanged. -/
theorem c3_push_unregistered :
    builtins_table "push" = none ∧
    runMsg "push" = some "identifier not found: push" ∧
    runType "push" = .ok .ERROR ∧
    push_fn [.array 0 9, .integer 3 11] pushDemoState =
      .ok (.array 1 10,
        { frames := [⟨[], none⟩],
          lists := [[Value.integer 1 7, Value.integer 2 8],
                    [Value.integer 1 7, Value.integer 2 8,
                     Value.integer 3 11]],
          next := 11 }) := by
  exact ⟨rfl, rfl, rfl, rfl⟩

/-- C4 (counterexample): the claim fails twice over.  Its own example
`1 == true` does not evaluate to the claimed type-mismatch Error — the
Boolean literal raises the uncaught `AttributeError` of `eval.py` line
90 at dispatch, so no value at all is produced.  And for mixed kinds
that can be evaluated, the `==` branch of `_eval_infix_expression` runs
before the type check and compares by identity: an Integer compared
with a function literal yields the Boolean singleton `false` (id 2),
not an Error. -/
theorem c4_eq_mixed_counterexample :
    runExn "1 == true" = some .attributeError ∧
    runMsg "1 == true" = none ∧
    runBoolOid "1 == fn(x) \x7b x \x7d" = some (false, 2) ∧
    runMsg "1 == fn(x) \x7b x \x7d" = none :=
  ⟨rfl, rfl, rfl, rfl⟩

/-- C4 (amended): for operand **values** of differing kinds the
type-mismatch Error of the claim is produced by every infix operator
except `==` and `!=`, which instead return a Boolean from the identity
comparison; end to end, `5 + (1 < 2)` yields exactly
`type mismatch: INTEGER + BOOLEAN`.  The claim quantification over
source-level operands must exclude Boolean/String/Array literals and
index expressions, which raise `AttributeError` at dispatch. -/
theorem c4_type_mismatch_amended :
    (∀ (operator : String) (left right : Value) (st : EvalState),
      operator ≠ "==" → operator ≠ "!=" → left.type ≠ right.type →
      eval_infix_expression operator left right st =
        .ok (.error ("type mismatch: " ++ left.type.name ++ " " ++ operator
          ++ " " ++ right.type.name) st.next,
          { st with next := st.next + 1 })) ∧
    runMsg "5 + (1 < 2)" = some "type mismatch: INTEGER + BOOLEAN" := by
  refine ⟨?_, rfl⟩
  intro operator left right st h1 h2 h3
  cases left <;> cases right <;>
    simp_all [eval_infix_expression, Value.type, allocOid]

/-- C4 witness: the amended theorem at `+`, Integer `5`, Boolean `true`
(a Boolean value such as a comparison produces). -/
theorem c4_type_mismatch_witness :
    ("+" : String) ≠ "==" ∧ ("+" : String) ≠ "!=" ∧
    (Value.integer 5 7).type ≠ Eval.true.type ∧
    eval_infix_expression "+" (Value.integer 5 7) Eval.true freshState =
      .ok (.error "type mismatch: INTEGER + BOOLEAN" 7,
        { freshState with next := 8 }) :=
  ⟨by decide, by decide, by decide,
    c4_type_mismatch_amended.1 "+" (Value.integer 5 7) Eval.true freshState
      (by decide) (by decide) (by decide)⟩

/-- C5 (counterexample): `"a" == "a"` does not evaluate to Boolean true
as the claim states: a String literal raises the uncaught
`AttributeError` of `eval.py` line 90 at dispatch, so the comparison
never runs and no value is produced. -/
theorem c5_string_eq_counterexample :
    runExn "\"a\" == \"a\"" = some .attributeError ∧
    runBoolOid "\"a\" == \"a\"" = none :=
  ⟨rfl, rfl⟩

/-- C5 (amended): `==` is value equality only for two Integer values.
String and Boolean literals cannot be evaluated at all (they raise the
`AttributeError` of `eval.py` line 90), so neither `"a" == "a"` nor
`true == true` produces a result.  For the non-Integer values the
evaluator can still produce, `==` is Python object identity: two
comparison results are the same Boolean singleton, two function
literals are distinct objects, and one function bound to `f` equals
itself. -/
theorem c5_equality_amended :
    (∀ (lv rv : Int) (i j : Nat) (st : EvalState),
      eval_infix_expression "==" (.integer lv i) (.integer rv j) st =
        .ok (native_bool_to_boolean_object (lv == rv), st)) ∧
    runBoolOid "1 == 1" = some (true, 1) ∧
    runBoolOid "1 != 1" = some (false, 2) ∧
    runExn "\"a\" == \"a\"" = some .attributeError ∧
    runExn "true == true" = some .attributeError ∧
    runBoolOid "(1 < 2) == (1 < 2)" = some (true, 1) ∧
    runBoolOid "fn(x) \x7b x \x7d == fn(x) \x7b x \x7d" = some (false, 2) ∧
    runBoolOid "let f = fn(x) \x7b x \x7d; f == f" = some (true, 1) :=
  ⟨fun lv rv i j st => rfl, rfl, rfl, rfl, rfl, rfl, rfl, rfl⟩

/-- Heap with one empty array cell (the array object has id 7). -/
def emptyArrayState : EvalState :=
  { frames := [⟨[], none⟩], lists := [[]], next := 8 }

/-- C6 (counterexample): the Null singleton invariant fails — an empty
program returns a **fresh** Null (id 7, allocated by `_eval_program`),
and `first_fn` on an empty Array value allocates another fresh Null
(id 8), while the canonical `Eval.null` has id 0, which an
if-expression without alternative does return (with an
Integer-comparison condition; a Boolean literal condition would raise
`AttributeError` at `eval.py` line 90). -/
theorem c6_null_singleton_counterexample :
    runNullOid "" = some 7 ∧
    runNullOid "if (1 > 2) \x7b 10 \x7d" = some 0 ∧
    first_fn [.array 0 7] emptyArrayState =
      .ok (.null 8, { emptyArrayState with next := 9 }) ∧
    (7 : Nat) ≠ 0 ∧ (8 : Nat) ≠ 0 :=
  ⟨rfl, rfl, rfl, by decide, by decide⟩

/-- C6 (amended): every Boolean the evaluator actually produces is one
of the canonical singletons (`native_bool_to_boolean_object` and the
bang operator only hand out `Eval.true` / `Eval.false`, and boolean
results of distinct evaluations carry the same id 1) — a Boolean
literal itself cannot be evaluated (`AttributeError` at `eval.py` line
90).  If-without-alternative returns the canonical `Eval.null` (id 0);
but the initial result of program evaluation, and the Null that
`first_fn` / `last_fn` / `rest_fn` return on an empty Array value, are
freshly constructed objects distinct from the canonical one. -/
theorem c6_singletons_amended :
    (∀ b : Bool, native_bool_to_boolean_object b = Eval.true ∨
      native_bool_to_boolean_object b = Eval.false) ∧
    (∀ v : Value, eval_bang_operator_expression v = Eval.true ∨
      eval_bang_operator_expression v = Eval.false) ∧
    runBoolOid "1 < 2" = some (true, 1) ∧
    runBoolOid "2 > 1" = some (true, 1) ∧
    runBoolOid "!!5" = some (true, 1) ∧
    runExn "true" = some .attributeError ∧
    runNullOid "if (1 > 2) \x7b 10 \x7d" = some 0 ∧
    runNullOid "" = some 7 ∧
    first_fn [.array 0 7] emptyArrayState =
      .ok (.null 8, { emptyArrayState with next := 9 }) ∧
    last_fn [.array 0 7] emptyArrayState =
      .ok (.null 8, { emptyArrayState with next := 9 }) ∧
    rest_fn [.array 0 7] emptyArrayState =
      .ok (.null 8, { emptyArrayState with next := 9 }) := by
  refine ⟨fun b => ?_, fun v => ?_, rfl, rfl, rfl, rfl, rfl, rfl, rfl, rfl,
    rfl⟩
  · cases b
    · exact Or.inr rfl
    · exact Or.inl rfl
  · simp only [eval_bang_operator_expression]
    split
    · exact Or.inr rfl
    · split
      · exact Or.inl rfl
      · split
        · exact Or.inl rfl
        · exact Or.inr rfl

/-- C7 (counterexample): `len(1)` produces the message with the Python
`str()` of the enum member — `ObjectType.INTEGER` — not the plain
`INTEGER` the claim states (the repository test `test_builtin_functions`
expects the `ObjectType.INTEGER` form); and `len("hello world")` does
not yield Integer 11 end to end, because the String literal argument
raises the uncaught `AttributeError` of `eval.py` line 90. -/
theorem c7_len_message_counterexample :
    runMsg "len(1)" =
      some "argument to `len` not supported, got ObjectType.INTEGER" ∧
    ("argument to `len` not supported, got ObjectType.INTEGER" : String) ≠
      "argument to `len` not supported, got INTEGER" ∧
    runExn "len(\"hello world\")" = some .attributeError ∧
    runInt "len(\"hello world\")" = none :=
  ⟨rfl, by decide, rfl, rfl⟩

/-- C7 (amended): `len` on one Integer yields the Error whose message
carries the `ObjectType.INTEGER` rendering; the program
`len("hello world")` crashes at the String literal argument
(`AttributeError`, `eval.py` line 90), while `len_fn` itself, applied
to a String **value** carrying `hello world`, does return Integer 11. -/
theorem c7_len_amended :
    runMsg "len(1)" =
      some "argument to `len` not supported, got ObjectType.INTEGER" ∧
    runExn "len(\"hello world\")" = some .attributeError ∧
    len_fn [.string "hello world" 7] freshState =
      .ok (.integer 11 7, { freshState with next := 8 }) :=
  ⟨rfl, rfl, rfl⟩

/-- C8: block evaluation does return the first `ReturnValue` or `Error`
result as is (no unwrapping) and program evaluation does unwrap a
`ReturnValue` — but the nested-if program of the claim does **not**
evaluate to the Error `unknown operator: BOOLEAN + BOOLEAN`: the
Boolean literal in the inner `return true + false;` raises the
uncaught `AttributeError` of `eval.py` line 90 (nonexistent
`ast.HashLiteral`) before `_eval_infix_expression` ever runs, so no
value at all is produced — contrary to the claim and to the repository
test `test_error_handling`, which expects that exact Error message. -/
theorem c8_return_error_propagation :
    (∀ (fuel : Nat) (s : Stmt) (rest : List Stmt) (envRef : Nat)
       (result : Value) (st : EvalState) (r : Value) (st' : EvalState),
       eval_stmt fuel s envRef st = .ok (r, st') →
       (∃ v o, r = .returnValue v o) ∨ (∃ m o, r = .error m o) →
       eval_block_loop (fuel + 1) (s :: rest) envRef result st =
         .ok (r, st')) ∧
    (∀ (fuel : Nat) (s : Stmt) (rest : List Stmt) (envRef : Nat)
       (result : Value) (st : EvalState) (v : Value) (o : Nat)
       (st' : EvalState),
       eval_stmt fuel s envRef st = .ok (.returnValue v o, st') →
       eval_program_loop (fuel + 1) (s :: rest) envRef result st =
         .ok (v, st')) ∧
    runExn c8prog = some .attributeError ∧
    runMsg c8prog = none := by
  refine ⟨?_, ?_, rfl, rfl⟩
  · intro fuel s rest envRef result st r st' hstep hro
    simp only [eval_block_loop, hstep]
    rcases hro with ⟨v, o, rfl⟩ | ⟨m, o, rfl⟩ <;> rfl
  · intro fuel s rest envRef result st v o st' hstep
    simp only [eval_program_loop, hstep]

/-- Return statement used to witness C8. -/
def c8wStmt : Stmt :=
  .returnStatement ⟨.RETURN, "return"⟩ (.integerLiteral ⟨.INT, "1"⟩ 1)

/-- C8 witness: a `return 1;` statement makes the block loop return the
wrapped `ReturnValue` unchanged. -/
theorem c8_return_error_propagation_witness :
    eval_stmt 5 c8wStmt 0 freshState =
      .ok (.returnValue (.integer 1 7) 8, { freshState with next := 9 }) ∧
    eval_block_loop 6 [c8wStmt] 0 Eval.null freshState =
      .ok (.returnValue (.integer 1 7) 8, { freshState with next := 9 }) :=
  ⟨rfl, c8_return_error_propagation.1 5 c8wStmt [] 0 Eval.null freshState
    (.returnValue (.integer 1 7) 8) { freshState with next := 9 }
    rfl (Or.inl ⟨.integer 1 7, 8, rfl⟩)⟩

/-- C9: the closure program of the claim evaluates to Integer 4, and
`new_enclosed_environment` (used by `_extend_function_env` at every
application) allocates a frame whose `outer` is exactly the captured
environment of the function. -/
theorem c9_closure_capture :
    runInt c9prog = some 4 ∧ runType c9prog = .ok .INTEGER ∧
    (∀ (st : EvalState) (outerRef : Nat),
      ((newEnclosedEnvironment st outerRef).2.frames)[
        (newEnclosedEnvironment st outerRef).1]? =
        some ⟨[], some outerRef⟩) := by
  refine ⟨rfl, rfl, ?_⟩
  intro st outerRef
  simp [newEnclosedEnvironment, List.getElem?_append_right]

/-- C10: `5 / 0` lexes and parses cleanly, but evaluation raises the
uncaught host `ZeroDivisionError` (the Integer/Integer `/` branch has no
zero guard), so no Monkey value — in particular no Error value — is
produced. -/
theorem c10_division_by_zero_uncaught :
    Parser.parse_errors "5 / 0" = [] ∧
    runExn "5 / 0" = some .zeroDivision ∧
    runMsg "5 / 0" = none ∧
    (∀ (lv : Int) (st : EvalState),
      eval_integer_infix_expression "/" lv 0 st = .error .zeroDivision) :=
  ⟨rfl, rfl, rfl, fun lv st => rfl⟩
